import Mathlib

/-!
Verification of the `tplink-deco-poller` bootstrap installer (`bootstrap.py`).

The script is operational glue over the filesystem and the user crontab, so we
embed it shallowly: the filesystem is an association list from absolute path to
an entry (content, permission mode, owner, group, directory flag), the crontab
is a string, and every provisioning step of the `TPLinkBootstrap` class becomes
a pure Lean function from state to `Bool × state` mirroring the Python control
flow line by line.  External effects (network fetches, subprocess exit codes,
interactive input) enter as explicit parameters.
-/

set_option autoImplicit false

namespace Bootstrap

/-! ### Python string primitives used by the script -/

/-- Characters Python's `str.strip` and `str.rstrip` remove by default. -/
def isPySpace (c : Char) : Bool :=
  c = ' ' || c = '\t' || c = '\n' || c = '\r' || c = '\x0b' || c = '\x0c'

/-- `str.rstrip()` on a character list. -/
def rstripCL (l : List Char) : List Char :=
  (l.reverse.dropWhile isPySpace).reverse

/-- Python `s.rstrip()`. -/
def rstrip (s : String) : String := ⟨rstripCL s.data⟩

/-- Python `s.strip()`. -/
def pyStrip (s : String) : String := ⟨rstripCL (s.data.dropWhile isPySpace)⟩

/-- Boolean list-prefix test (needle first, haystack second). -/
def prefCL : List Char → List Char → Bool
  | [], _ => true
  | _ :: _, [] => false
  | a :: as, b :: bs => a == b && prefCL as bs

/-- Boolean substring occurrence test (needle first, haystack second). -/
def subCL (needle : List Char) : List Char → Bool
  | [] => prefCL needle []
  | b :: bs => prefCL needle (b :: bs) || subCL needle bs

/-- Python's `needle in hay` on strings. -/
def pyIn (needle hay : String) : Bool := subCL needle.data hay.data

/-- Split a character list at newline characters (separator-style, so a
trailing newline yields a final empty line). -/
def splitOnNl : List Char → List (List Char)
  | [] => [[]]
  | c :: cs =>
    if c = '\n' then [] :: splitOnNl cs
    else
      match splitOnNl cs with
      | [] => [[c]]
      | l :: ls => (c :: l) :: ls

/-- The lines of a string, splitting at newline characters. -/
def strLines (s : String) : List String :=
  (splitOnNl s.data).map fun l => ⟨l⟩

theorem prefCL_iff (l₁ l₂ : List Char) : prefCL l₁ l₂ = true ↔ l₁ <+: l₂ := by
  induction l₁ generalizing l₂ with
  | nil => simp [prefCL]
  | cons a as ih =>
    cases l₂ with
    | nil => simp [prefCL]
    | cons b bs =>
      simp only [prefCL, Bool.and_eq_true, beq_iff_eq, ih, List.cons_prefix_cons]

theorem subCL_iff (n h : List Char) : subCL n h = true ↔ n <:+: h := by
  induction h with
  | nil =>
    simp only [subCL, prefCL_iff, List.infix_nil, List.prefix_nil]
  | cons b bs ih =>
    simp [subCL, prefCL_iff, ih, List.infix_cons_iff]

theorem pyIn_iff (n h : String) : pyIn n h = true ↔ n.data <:+: h.data :=
  subCL_iff n.data h.data

theorem splitOnNl_ne_nil (l : List Char) : splitOnNl l ≠ [] := by
  cases l with
  | nil => simp [splitOnNl]
  | cons c cs =>
    simp only [splitOnNl]
    split
    · simp
    · split <;> simp

theorem splitOnNl_append (a b : List Char) :
    splitOnNl (a ++ '\n' :: b) = splitOnNl a ++ splitOnNl b := by
  induction a with
  | nil => simp [splitOnNl]
  | cons c cs ih =>
    by_cases hc : c = '\n'
    · subst hc
      simp [splitOnNl, ih]
    · cases hcs : splitOnNl cs with
      | nil => exact absurd hcs (splitOnNl_ne_nil cs)
      | cons m ms =>
        simp [splitOnNl, if_neg hc, ih, hcs]

theorem splitOnNl_of_no_nl (l : List Char) (h : '\n' ∉ l) : splitOnNl l = [l] := by
  induction l with
  | nil => simp [splitOnNl]
  | cons c cs ih =>
    simp only [List.mem_cons, not_or] at h
    have hc : ¬(c = '\n') := fun hc => h.1 hc.symm
    simp only [splitOnNl, if_neg hc, ih h.2]

theorem splitOnNl_head_isPre :
    ∀ (l l0 : List Char) (ls : List (List Char)), splitOnNl l = l0 :: ls → l0 <+: l := by
  intro l
  induction l with
  | nil =>
    intro l0 ls h
    simp only [splitOnNl, List.cons.injEq] at h
    rcases h with ⟨rfl, rfl⟩
    exact List.nil_prefix
  | cons c cs ih =>
    intro l0 ls h
    simp only [splitOnNl] at h
    by_cases hc : c = '\n'
    · rw [if_pos hc] at h
      cases h
      exact List.nil_prefix
    · rw [if_neg hc] at h
      cases hcs : splitOnNl cs with
      | nil => exact absurd hcs (splitOnNl_ne_nil cs)
      | cons m ms =>
        rw [hcs] at h
        obtain ⟨rfl, rfl⟩ := (List.cons.injEq _ _ _ _).mp h.symm
        exact List.cons_prefix_cons.mpr ⟨rfl, ih _ _ hcs⟩

theorem mem_splitOnNl_infix {l : List Char} {x : List Char} (h : x ∈ splitOnNl l) :
    x <:+: l := by
  induction l generalizing x with
  | nil =>
    simp only [splitOnNl, List.mem_singleton] at h
    simp [h]
  | cons c cs ih =>
    simp only [splitOnNl] at h
    by_cases hc : c = '\n'
    · rw [if_pos hc] at h
      rcases List.mem_cons.mp h with h1 | h2
      · simp [h1]
      · exact List.infix_cons (ih h2)
    · rw [if_neg hc] at h
      cases hcs : splitOnNl cs with
      | nil => exact absurd hcs (splitOnNl_ne_nil cs)
      | cons m ms =>
        rw [hcs] at h
        rcases List.mem_cons.mp h with h1 | h2
        · subst h1
          exact List.IsPrefix.isInfix
            (List.cons_prefix_cons.mpr ⟨rfl, splitOnNl_head_isPre cs m ms hcs⟩)
        · exact List.infix_cons (ih (hcs ▸ List.mem_cons_of_mem m h2))

theorem rstripCL_isPre (l : List Char) : rstripCL l <+: l := by
  rw [rstripCL, ← List.reverse_suffix, List.reverse_reverse]
  exact List.dropWhile_suffix _

theorem rstrip_data_isPre (s : String) : (rstrip s).data <+: s.data :=
  rstripCL_isPre s.data

/-! ### Module-level configuration constants of `bootstrap.py` -/

def GITHUB_REPO : String := "visvarb/tplink-deco-poller"

/-- `REQUIRED_FILES`: local destination name paired with the GitHub file name,
in the script's insertion order. -/
def REQUIRED_FILES : List (String × String) :=
  [("generate_hosts.py", "generate_hosts.py"),
   ("run_generate_hosts.sh", "run_generate_hosts.sh"),
   ("requirements.txt", "requirements.txt")]

def base_dir : String := "/srv/tplink-deco"

def log_dir : String := "/srv/tplink-deco/log"

def venv_dir : String := "/srv/tplink-deco/venv"

def python_exe : String := "/srv/tplink-deco/venv/bin/python"

/-- `Path` division: `self.base_dir / name`. -/
def pjoin (d f : String) : String := d ++ "/" ++ f

def env_file_path : String := "/srv/tplink-deco/tplink.env"

/-- The cron entry appended by `setup_cron`. -/
def cron_job : String := "0 * * * * /srv/tplink-deco/run_generate_hosts.sh"

def sentinel_gateway : String := "your_router_gateway_ip_address"

def sentinel_password : String := "your_router_password"

/-- The template written by `create_env_file` when no env file exists. -/
def env_template : String :=
  "# TPLink Deco Configuration\n# Replace the values below with your actual router settings\n\n# Router gateway IP address (e.g., 192.168.1.1 or 10.1.0.1)\nTPLINK_GATEWAY=your_router_gateway_ip_address\n\n# Router admin password\nTPLINK_PASSWORD=your_router_password\n\n# Optional: Enable testing mode (1 for testing, 0 for production)\n# TESTING=0\n"

/-- The file content written by `configure_credentials` on success. -/
def configured_env (gateway password : String) : String :=
  "# TPLink Deco Configuration\n# Generated by bootstrap script\n\n# Router gateway IP address\nTPLINK_GATEWAY=" ++ gateway ++ "\n\n# Router admin password\nTPLINK_PASSWORD=" ++ password ++ "\n\n# Optional: Enable testing mode (1 for testing, 0 for production)\n# TESTING=0\n"

/-- The `files_permissions` dict of `set_permissions`. -/
def files_permissions : List (String × Nat) :=
  [("generate_hosts.py", 0o644),
   ("tplink.env", 0o600),
   ("run_generate_hosts.sh", 0o755),
   ("requirements.txt", 0o644)]

/-- Packages checked by `install_system_dependencies`. -/
def required_packages : List String :=
  ["python3", "python3-venv", "python3-dev", "python3-pip", "curl", "wget", "pip"]

/-! ### Filesystem and system state -/

/-- One filesystem object: a regular file (with content) or a directory. -/
structure Entry where
  isDir : Bool := false
  content : String := ""
  mode : Nat := 0o644
  owner : String := "root"
  group : String := "root"
deriving Repr, DecidableEq

/-- The filesystem: an association list from absolute path to entry. -/
abbrev FS := List (String × Entry)

def fsGet : FS → String → Option Entry
  | [], _ => none
  | (q, e) :: t, p => if q = p then some e else fsGet t p

/-- Write path `p` (update in place if present, else append). -/
def fsSet : FS → String → Entry → FS
  | [], p, e => [(p, e)]
  | (q, d) :: t, p, e => if q = p then (q, e) :: t else (q, d) :: fsSet t p e

def fsKeys (fs : FS) : List String := fs.map Prod.fst

/-- Whole-system state: filesystem, the root user's crontab (empty string when
none is installed, matching how `setup_cron` reads it), and whether the
`mkdtemp` staging directory of `download_files` currently exists. -/
structure SysState where
  fs : FS
  crontab : String
  tempStaging : Bool
deriving Repr, DecidableEq

def freshState : SysState := { fs := [], crontab := "", tempStaging := false }

theorem fsGet_fsSet_self (fs : FS) (p : String) (e : Entry) :
    fsGet (fsSet fs p e) p = some e := by
  induction fs with
  | nil => simp [fsSet, fsGet]
  | cons h t ih =>
    obtain ⟨q, d⟩ := h
    by_cases hq : q = p
    · simp [fsSet, fsGet, hq]
    · simp [fsSet, fsGet, hq, ih]

theorem fsGet_fsSet_ne (fs : FS) (p q : String) (e : Entry) (h : q ≠ p) :
    fsGet (fsSet fs p e) q = fsGet fs q := by
  induction fs with
  | nil =>
    have hpq : ¬(p = q) := fun hh => h hh.symm
    simp [fsSet, fsGet, hpq]
  | cons hd t ih =>
    obtain ⟨r, d⟩ := hd
    by_cases hr : r = p
    · subst hr
      have hrq : ¬(r = q) := fun hh => h hh.symm
      simp [fsSet, fsGet, hrq]
    · simp only [fsSet, if_neg hr, fsGet]
      by_cases hrq : r = q
      · simp [hrq]
      · simp [hrq, ih]

theorem fsGet_eq_none_iff (fs : FS) (p : String) :
    fsGet fs p = none ↔ p ∉ fsKeys fs := by
  induction fs with
  | nil => simp [fsGet, fsKeys]
  | cons hd t ih =>
    obtain ⟨q, d⟩ := hd
    by_cases hq : q = p
    · simp [fsGet, fsKeys, hq]
    · have hpq : ¬(p = q) := fun hh => hq hh.symm
      simp [fsGet, fsKeys, hq, hpq, ih]

theorem fsKeys_fsSet_mem (fs : FS) (p : String) (e : Entry) (h : p ∈ fsKeys fs) :
    fsKeys (fsSet fs p e) = fsKeys fs := by
  induction fs with
  | nil => simp [fsKeys] at h
  | cons hd t ih =>
    obtain ⟨q, d⟩ := hd
    by_cases hq : q = p
    · simp [fsSet, fsKeys, hq]
    · simp only [fsKeys, List.map_cons, List.mem_cons] at h
      rcases h with h1 | h2
      · exact absurd h1.symm hq
      · simp [fsSet, fsKeys, hq]
        exact ih h2

theorem fsKeys_fsSet_not_mem (fs : FS) (p : String) (e : Entry) (h : p ∉ fsKeys fs) :
    fsKeys (fsSet fs p e) = fsKeys fs ++ [p] := by
  induction fs with
  | nil => simp [fsSet, fsKeys]
  | cons hd t ih =>
    obtain ⟨q, d⟩ := hd
    simp only [fsKeys, List.map_cons, List.mem_cons, not_or] at h
    have hqp : ¬(q = p) := fun hh => h.1 hh.symm
    simp [fsSet, fsKeys, hqp]
    exact ih h.2

/-! ### Environment of external effects

Everything the script observes from outside the modelled state: identity,
network, package-manager results, remote file contents, subprocess exit
codes and the current timestamp. -/

structure Env where
  /-- `os.geteuid() == 0`. -/
  isRoot : Bool
  /-- `urlopen("https://github.com")` succeeds. -/
  internetOk : Bool
  /-- the apt cache marker exists with mtime within the last hour. -/
  aptCacheFresh : Bool
  /-- `apt update` exits 0. -/
  aptUpdateOk : Bool
  /-- stdout of `dpkg -l`. -/
  dpkgOutput : String
  /-- `apt install -y …` exits 0. -/
  aptInstallOk : Bool
  /-- remote retrieval: content of each GitHub file name, `none` on failure. -/
  fetch : String → Option String
  /-- `datetime.now().strftime("%Y%m%d_%H%M%S")`. -/
  now : String
  /-- the pip upgrade and dependency install calls all exit 0. -/
  pipOk : Bool
  /-- `crontab -` accepts the new table (exit code 0). -/
  cronWriteOk : Bool

/-- Mode `urllib.request.urlretrieve` leaves on a staged download (default
creation mode under the root umask); `shutil.copy2` then propagates it to
the installed destination. -/
def temp_file_mode : Nat := 0o644

/-! ### The provisioning steps of `TPLinkBootstrap` -/

/-- `check_privileges`. -/
def check_privileges (e : Env) (s : SysState) : Bool × SysState := (e.isRoot, s)

/-- `check_internet_connection`. -/
def check_internet_connection (e : Env) (s : SysState) : Bool × SysState :=
  (e.internetOk, s)

/-- `update_packages`: skip `apt update` when the cache marker is fresh. -/
def update_packages (e : Env) (s : SysState) : Bool × SysState :=
  (if e.aptCacheFresh then true else e.aptUpdateOk, s)

/-- `install_system_dependencies`: collect the packages whose `ii  <name> `
line is absent from `dpkg -l` output, then batch-install them. -/
def install_system_dependencies (e : Env) (s : SysState) : Bool × SysState :=
  let to_install :=
    required_packages.filter fun p => !pyIn ("ii  " ++ p ++ " ") e.dpkgOutput
  (if to_install.isEmpty then true else e.aptInstallOk, s)

/-- `directory.mkdir(parents=True, exist_ok=True)` guarded by `exists()`. -/
def mkdirIfAbsent (fs : FS) (p : String) : FS :=
  match fsGet fs p with
  | some _ => fs
  | none => fsSet fs p { isDir := true, mode := 0o755 }

/-- `create_directories`: ensure `base_dir` and `log_dir`. -/
def create_directories (s : SysState) : Bool × SysState :=
  (true, { s with fs := mkdirIfAbsent (mkdirIfAbsent s.fs base_dir) log_dir })

/-- The download loop of `download_files`: stage every required file, or
fail on the first retrieval error. -/
def fetchAll (fetch : String → Option String) :
    List (String × String) → Option (List (String × String))
  | [] => some []
  | (localName, githubName) :: rest =>
    match fetch githubName with
    | none => none
    | some c =>
      match fetchAll fetch rest with
      | none => none
      | some l => some ((localName, c) :: l)

/-- The install loop body of `download_files` for one staged artifact:
back up a differing pre-existing destination, then `copy2` into place. -/
def installFile (now : String) (fs : FS) (localName content : String) : FS :=
  let dest := pjoin base_dir localName
  match fsGet fs dest with
  | none => fsSet fs dest { content := content, mode := temp_file_mode }
  | some e =>
    if e.content = content then
      fsSet fs dest { e with content := content, mode := temp_file_mode }
    else
      let backup := pjoin base_dir (localName ++ ".backup." ++ now)
      fsSet (fsSet fs backup { e with owner := "root", group := "root" }) dest
        { e with content := content, mode := temp_file_mode }

def installAll (now : String) (fs : FS) : List (String × String) → FS
  | [] => fs
  | (localName, c) :: rest => installAll now (installFile now fs localName c) rest

/-- `download_files`: create the staging directory, download everything
(abort on first failure), install the batch, and remove the staging
directory in the `finally` block on every exit path. -/
def download_files (fetch : String → Option String) (now : String) (s : SysState) :
    Bool × SysState :=
  let s1 : SysState := { s with tempStaging := true }
  let r : Bool × SysState :=
    match fetchAll fetch REQUIRED_FILES with
    | none => (false, s1)
    | some staged => (true, { s1 with fs := installAll now s1.fs staged })
  (r.1, { r.2 with tempStaging := false })

/-- `setup_virtual_environment`: create the venv (with its python binary)
if absent, then run the pip calls, whose combined exit status is the
step's result. -/
def setup_virtual_environment (pipOk : Bool) (s : SysState) : Bool × SysState :=
  let fs1 :=
    match fsGet s.fs venv_dir with
    | some _ => s.fs
    | none =>
      fsSet (fsSet s.fs venv_dir { isDir := true, mode := 0o755 })
        python_exe { mode := 0o755 }
  (pipOk, { s with fs := fs1 })

/-- `create_env_file`: write the template only when no env file exists. -/
def create_env_file (s : SysState) : Bool × SysState :=
  match fsGet s.fs env_file_path with
  | some _ => (true, s)
  | none =>
    (true, { s with fs := fsSet s.fs env_file_path { content := env_template, mode := 0o644 } })

/-- `shutil.chown`: fails (raises) when the path does not exist. -/
def tryChown (fs : FS) (p u g : String) : Option FS :=
  match fsGet fs p with
  | none => none
  | some e => some (fsSet fs p { e with owner := u, group := g })

/-- `Path.chmod`: fails (raises) when the path does not exist. -/
def tryChmod (fs : FS) (p : String) (m : Nat) : Option FS :=
  match fsGet fs p with
  | none => none
  | some e => some (fsSet fs p { e with mode := m })

/-- `if path.exists(): path.chmod(m)`. -/
def chmodIfExists (fs : FS) (p : String) (m : Nat) : FS :=
  match fsGet fs p with
  | none => fs
  | some e => fsSet fs p { e with mode := m }

/-- `set_permissions`: chown the base directory (only it — the call is not
recursive), chmod base/log (raising if absent), chmod venv and its python
binary when present, then apply `files_permissions` to the well-known
files that exist. -/
def set_permissions (s : SysState) : Bool × SysState :=
  match tryChown s.fs base_dir "root" "root" with
  | none => (false, s)
  | some fs1 =>
    match tryChmod fs1 base_dir 0o755 with
    | none => (false, { s with fs := fs1 })
    | some fs2 =>
      match tryChmod fs2 log_dir 0o755 with
      | none => (false, { s with fs := fs2 })
      | some fs3 =>
        let fs4 :=
          match fsGet fs3 venv_dir with
          | none => fs3
          | some e =>
            chmodIfExists (fsSet fs3 venv_dir { e with mode := 0o755 }) python_exe 0o755
        let fs5 := files_permissions.foldl
          (fun acc pm => chmodIfExists acc (pjoin base_dir pm.1) pm.2) fs4
        (true, { s with fs := fs5 })

/-- The crontab rewrite of `setup_cron` as a pure function of the current
table: no-op when the entry already occurs as a substring, else append. -/
def setup_cron_update (entry tab : String) : String :=
  if pyIn entry tab then tab else rstrip tab ++ "\n" ++ entry ++ "\n"

/-- `setup_cron` on the system state (`cronWriteOk` is the exit status of
`crontab -`). -/
def setup_cron (cronWriteOk : Bool) (s : SysState) : Bool × SysState :=
  if pyIn cron_job s.crontab then (true, s)
  else if cronWriteOk then
    (true, { s with crontab := rstrip s.crontab ++ "\n" ++ cron_job ++ "\n" })
  else (false, s)

/-- The "already configured" check of `configure_credentials`: the env file
exists and contains neither sentinel. -/
def env_already_configured (s : SysState) : Bool :=
  match fsGet s.fs env_file_path with
  | some e => !pyIn sentinel_gateway e.content && !pyIn sentinel_password e.content
  | none => false

/-- `configure_credentials`; `interrupted` models a `KeyboardInterrupt`
during either prompt, `gw`/`pw` the raw operator answers. -/
def configure_credentials (interrupted : Bool) (gw pw : String) (s : SysState) :
    Bool × SysState :=
  if env_already_configured s then (true, s)
  else if interrupted then (true, s)
  else if pyStrip gw = "" then (true, s)
  else if pyStrip pw = "" then (true, s)
  else
    let newContent := configured_env (pyStrip gw) (pyStrip pw)
    let fs1 :=
      match fsGet s.fs env_file_path with
      | some e => fsSet s.fs env_file_path { e with content := newContent, mode := 0o600 }
      | none => fsSet s.fs env_file_path { content := newContent, mode := 0o600 }
    (true, { s with fs := fs1 })

/-- `run_initial_generation`: result is `(success, invoked)` where `invoked`
records whether the external generation script was executed.  `scriptExit`
is its exit code (`none` models the 60-second timeout expiring). -/
def run_initial_generation (scriptExit : Option Int) (s : SysState) : Bool × Bool :=
  match fsGet s.fs env_file_path with
  | none => (true, false)
  | some e =>
    if pyIn sentinel_gateway e.content || pyIn sentinel_password e.content then
      (true, false)
    else
      match scriptExit with
      | some rc => (if rc = 0 then (true, true) else (false, true))
      | none => (false, true)

/-! ### The sequencer (`TPLinkBootstrap.run` and `main`) -/

/-- Run a list of gated steps: stop at the first failure.  Returns the
result, the final state, and how many steps were executed. -/
def runSteps {σ : Type} : List (σ → Bool × σ) → σ → Bool × σ × Nat
  | [], s => (true, s, 0)
  | f :: rest, s =>
    match f s with
    | (true, s1) =>
      match runSteps rest s1 with
      | (b, s2, n) => (b, s2, n + 1)
    | (false, s1) => (false, s1, 1)

/-- The state after running a list of steps unconditionally. -/
def execList {σ : Type} : List (σ → Bool × σ) → σ → σ
  | [], s => s
  | f :: rest, s => execList rest (f s).2

/-- Every step in the list succeeds when run in sequence. -/
def allSucceed {σ : Type} : List (σ → Bool × σ) → σ → Prop
  | [], _ => True
  | f :: rest, s => (f s).1 = true ∧ allSucceed rest (f s).2

/-- The ten mandatory steps of `TPLinkBootstrap.run`, in source order. -/
def mandatorySteps (e : Env) : List (SysState → Bool × SysState) :=
  [check_privileges e, check_internet_connection e, update_packages e,
   install_system_dependencies e, create_directories,
   download_files e.fetch e.now, setup_virtual_environment e.pipOk,
   create_env_file, set_permissions, setup_cron e.cronWriteOk]

/-- Operator choices for the two optional trailing flows of `run`. -/
structure OptFlows where
  doCred : Bool
  credInterrupted : Bool
  credGateway : String
  credPassword : String
  doGen : Bool
  genExit : Option Int

/-- Decline both optional flows. -/
def declinedFlows : OptFlows :=
  { doCred := false, credInterrupted := false, credGateway := "",
    credPassword := "", doGen := false, genExit := none }

/-- `TPLinkBootstrap.run`: execute the mandatory steps, abort on the first
failure; afterwards run the optional flows, discarding their results, and
return `True`. -/
def bootstrap_run (e : Env) (opt : OptFlows) (s : SysState) : Bool × SysState :=
  match runSteps (mandatorySteps e) s with
  | (true, s1, _) =>
    -- `run_initial_generation` only runs the external script; it does not
    -- modify the modelled state, and its result is discarded, as is the
    -- result of the optional credential flow.
    (true,
      if opt.doCred then
        (configure_credentials opt.credInterrupted opt.credGateway opt.credPassword s1).2
      else s1)
  | (false, s1, _) => (false, s1)

/-- Number of mandatory steps `run` actually executed. -/
def steps_executed (e : Env) (s : SysState) : Nat :=
  (runSteps (mandatorySteps e) s).2.2

/-- The process exit code of `main`: 1 for the repository-placeholder guard,
else 0 iff `run` returned `True`. -/
def main_exit_code (e : Env) (opt : OptFlows) (s : SysState) : Nat :=
  if GITHUB_REPO = "your-username/tplink-deco-poller" then 1
  else if (bootstrap_run e opt s).1 then 0 else 1

/-! ### Supporting lemmas -/

theorem fetchAll_eq_none (fetch : String → Option String) (l : List (String × String))
    (h : ∃ p ∈ l, fetch p.2 = none) : fetchAll fetch l = none := by
  induction l with
  | nil => simp at h
  | cons hd t ih =>
    obtain ⟨ln, gn⟩ := hd
    rcases h with ⟨p, hp, hfail⟩
    rcases List.mem_cons.mp hp with h1 | h2
    · subst h1
      simp only [fetchAll]
      rw [hfail]
    · have ht : fetchAll fetch t = none := ih ⟨p, h2, hfail⟩
      simp only [fetchAll]
      cases hfg : fetch gn with
      | none => rfl
      | some c => rw [ht]

theorem fsGet_fsSet (fs : FS) (p q : String) (e : Entry) :
    fsGet (fsSet fs p e) q = if q = p then some e else fsGet fs q := by
  by_cases h : q = p
  · subst h
    simp [fsGet_fsSet_self]
  · simp [h, fsGet_fsSet_ne fs p q e h]

theorem fsGet_some_mem {fs : FS} {p : String} {e : Entry}
    (h : fsGet fs p = some e) : p ∈ fsKeys fs := by
  by_contra hmem
  rw [← fsGet_eq_none_iff] at hmem
  rw [h] at hmem
  exact Option.noConfusion hmem

/-! ### Claim C1 -/

/-- Claim C1: if any single required download fails, `download_files` returns
failure and the persistent state is untouched — no artifact of the batch is
installed at its destination and no backup is created — while the temporary
staging directory is removed on every exit path (success or failure). -/
theorem C1_all_or_nothing (fetch : String → Option String) (now : String) (s : SysState)
    (h : ∃ p ∈ REQUIRED_FILES, fetch p.2 = none) :
    download_files fetch now s = (false, { s with tempStaging := false }) ∧
    (∀ (fetch2 : String → Option String) (now2 : String) (s2 : SysState),
       (download_files fetch2 now2 s2).2.tempStaging = false) := by
  constructor
  · rw [download_files, fetchAll_eq_none fetch REQUIRED_FILES h]
  · intro fetch2 now2 s2
    rw [download_files]

theorem C1_all_or_nothing_witness :
    download_files (fun _ => none) "20250101_000000" freshState
      = (false, { freshState with tempStaging := false }) :=
  (C1_all_or_nothing (fun _ => none) "20250101_000000" freshState
    ⟨("generate_hosts.py", "generate_hosts.py"), by simp [REQUIRED_FILES], rfl⟩).1

/-! ### Claim C2 -/

theorem dest_ne_backup (localName now : String) :
    pjoin base_dir localName ≠ pjoin base_dir (localName ++ ".backup." ++ now) := by
  intro h
  have h2 := congrArg String.length h
  rw [pjoin, pjoin] at h2
  simp only [String.length_append] at h2
  rw [show String.length ".backup." = 8 from rfl] at h2
  omega

/-- Claim C2: per fetched artifact, the install step of `download_files`
creates exactly one new file — the timestamped backup holding the pre-update
installed content — when the destination exists with differing content;
creates no backup when the contents are byte-identical; and installs directly,
creating only the destination, when no destination exists. -/
theorem C2_backup_semantics (fs : FS) (localName c now : String) :
    (∀ e, fsGet fs (pjoin base_dir localName) = some e → e.content ≠ c →
       fsGet fs (pjoin base_dir (localName ++ ".backup." ++ now)) = none →
       fsGet (installFile now fs localName c)
           (pjoin base_dir (localName ++ ".backup." ++ now))
         = some { e with owner := "root", group := "root" } ∧
       fsKeys (installFile now fs localName c)
         = fsKeys fs ++ [pjoin base_dir (localName ++ ".backup." ++ now)] ∧
       fsGet (installFile now fs localName c) (pjoin base_dir localName)
         = some { e with content := c, mode := temp_file_mode }) ∧
    (∀ e, fsGet fs (pjoin base_dir localName) = some e → e.content = c →
       fsKeys (installFile now fs localName c) = fsKeys fs ∧
       fsGet (installFile now fs localName c) (pjoin base_dir localName)
         = some { e with content := c, mode := temp_file_mode }) ∧
    (fsGet fs (pjoin base_dir localName) = none →
       fsKeys (installFile now fs localName c)
         = fsKeys fs ++ [pjoin base_dir localName] ∧
       fsGet (installFile now fs localName c) (pjoin base_dir localName)
         = some { content := c, mode := temp_file_mode }) := by
  refine ⟨?_, ?_, ?_⟩
  · intro e he hdiff hbk
    rw [installFile]
    simp only [he, if_neg hdiff]
    have hne := dest_ne_backup localName now
    refine ⟨?_, ?_, ?_⟩
    · rw [fsGet_fsSet_ne _ _ _ _ (fun hh => hne hh.symm), fsGet_fsSet_self]
    · have hbk2 : pjoin base_dir (localName ++ ".backup." ++ now) ∉ fsKeys fs :=
        (fsGet_eq_none_iff fs _).mp hbk
      rw [fsKeys_fsSet_mem, fsKeys_fsSet_not_mem _ _ _ hbk2]
      rw [fsKeys_fsSet_not_mem _ _ _ hbk2]
      exact List.mem_append_left _ (fsGet_some_mem he)
    · rw [fsGet_fsSet_self]
  · intro e he heq
    rw [installFile]
    simp only [he, if_pos heq]
    exact ⟨fsKeys_fsSet_mem fs _ _ (fsGet_some_mem he), fsGet_fsSet_self _ _ _⟩
  · intro hnone
    rw [installFile]
    simp only [hnone]
    exact ⟨fsKeys_fsSet_not_mem fs _ _ ((fsGet_eq_none_iff fs _).mp hnone),
      fsGet_fsSet_self _ _ _⟩

def c2_fs : FS := [(pjoin base_dir "generate_hosts.py", { content := "old" })]

theorem C2_backup_semantics_witness :
    fsGet (installFile "20250101_000000" c2_fs "generate_hosts.py" "new")
        (pjoin base_dir ("generate_hosts.py" ++ ".backup." ++ "20250101_000000"))
      = some { content := "old", owner := "root", group := "root" } :=
  ((C2_backup_semantics c2_fs "generate_hosts.py" "new" "20250101_000000").1
    { content := "old" } rfl (by decide) (by decide)).1

/-! ### Claim C4 -/

/-- Claim C4: `create_env_file` writes the credentials template only when no
env file exists; when one exists — in any state — it succeeds without
altering anything. -/
theorem C4_template_write_once (s : SysState) :
    (∀ e, fsGet s.fs env_file_path = some e → create_env_file s = (true, s)) ∧
    (fsGet s.fs env_file_path = none →
       create_env_file s
         = (true, { s with
             fs := fsSet s.fs env_file_path { content := env_template, mode := 0o644 } })) := by
  constructor
  · intro e he
    rw [create_env_file, he]
  · intro hnone
    rw [create_env_file, hnone]

theorem C4_template_write_once_witness :
    create_env_file { freshState with fs := [(env_file_path, { content := "user edited" })] }
      = (true, { freshState with fs := [(env_file_path, { content := "user edited" })] }) :=
  (C4_template_write_once _).1 { content := "user edited" } rfl

/-! ### Claim C8 -/

/-- Claim C8: `run_initial_generation` invokes the external generation script
exactly when the credentials file exists and contains neither sentinel
placeholder; whenever it does not invoke the script it returns success. -/
theorem C8_first_run_guard (scriptExit : Option Int) (s : SysState) :
    ((run_initial_generation scriptExit s).2 = true ↔
       ∃ e, fsGet s.fs env_file_path = some e ∧
         pyIn sentinel_gateway e.content = false ∧
         pyIn sentinel_password e.content = false) ∧
    ((run_initial_generation scriptExit s).2 = false →
       (run_initial_generation scriptExit s).1 = true) := by
  cases he : fsGet s.fs env_file_path with
  | none =>
    constructor
    · simp [run_initial_generation, he]
    · intro
      simp [run_initial_generation, he]
  | some e =>
    by_cases hs : pyIn sentinel_gateway e.content || pyIn sentinel_password e.content
    · constructor
      · simp only [run_initial_generation, he, if_pos hs]
        simp only [Bool.or_eq_true] at hs
        constructor
        · intro hff
          exact absurd hff (by simp)
        · rintro ⟨e2, he2, hg, hp⟩
          cases he2
          rcases hs with hs | hs
          · rw [hg] at hs
            cases hs
          · rw [hp] at hs
            cases hs
      · intro
        have hp : (pyIn sentinel_gateway e.content = true ∨
            pyIn sentinel_password e.content = true) := by
          simpa using hs
        simp [run_initial_generation, he, hp]
    · have hs2 := hs
      simp only [Bool.or_eq_true, not_or, Bool.not_eq_true] at hs2
      constructor
      · simp only [run_initial_generation, he, if_neg hs]
        constructor
        · intro
          exact ⟨e, rfl, hs2.1, hs2.2⟩
        · intro
          cases scriptExit with
          | none => simp
          | some rc =>
            by_cases hrc : rc = 0 <;> simp [hrc]
      · simp only [run_initial_generation, he, if_neg hs]
        intro hinv
        exfalso
        cases scriptExit with
        | none => simp at hinv
        | some rc =>
          by_cases hrc : rc = 0 <;> simp [hrc] at hinv

theorem C8_first_run_guard_witness :
    (run_initial_generation none freshState).1 = true :=
  (C8_first_run_guard none freshState).2 rfl

/-! ### Claim C9 -/

/-- Claim C9: in `configure_credentials`, an empty gateway answer, an empty
password answer, or an interrupt mid-prompt leaves the credentials file (and
the whole state) unmodified and returns success; only when both values are
supplied (and the file was not already configured) is the file rewritten,
with the owner-only mode re-applied. -/
theorem C9_credential_flow (interrupted : Bool) (gw pw : String) (s : SysState) :
    (interrupted = true → configure_credentials interrupted gw pw s = (true, s)) ∧
    (pyStrip gw = "" → configure_credentials interrupted gw pw s = (true, s)) ∧
    (pyStrip pw = "" → configure_credentials interrupted gw pw s = (true, s)) ∧
    (env_already_configured s = true →
       configure_credentials interrupted gw pw s = (true, s)) ∧
    (env_already_configured s = false → interrupted = false →
       pyStrip gw ≠ "" → pyStrip pw ≠ "" →
       (configure_credentials interrupted gw pw s).1 = true ∧
       ∃ e2, fsGet (configure_credentials interrupted gw pw s).2.fs env_file_path
               = some e2 ∧
         e2.content = configured_env (pyStrip gw) (pyStrip pw) ∧
         e2.mode = 0o600) := by
  refine ⟨?_, ?_, ?_, ?_, ?_⟩
  · intro hi
    subst hi
    rw [configure_credentials]
    split
    · rfl
    · rfl
  · intro hg
    simp [configure_credentials, hg]
  · intro hp
    simp [configure_credentials, hp]
  · intro hc
    rw [configure_credentials, if_pos hc]
  · intro hc hi hg hp
    rw [configure_credentials, if_neg (by simp [hc]), if_neg (by simp [hi]),
      if_neg hg, if_neg hp]
    refine ⟨rfl, ?_⟩
    cases he : fsGet s.fs env_file_path with
    | none =>
      simp only [he]
      exact ⟨_, fsGet_fsSet_self _ _ _, rfl, rfl⟩
    | some e =>
      simp only [he]
      exact ⟨_, fsGet_fsSet_self _ _ _, rfl, rfl⟩

theorem C9_credential_flow_witness :
    configure_credentials true "10.0.0.1" "secret" freshState = (true, freshState) :=
  (C9_credential_flow true "10.0.0.1" "secret" freshState).1 rfl

/-! ### Claim C3 -/

theorem nl_data : ("\n" : String).data = ['\n'] := rfl

theorem setup_cron_update_data (entry tab : String) :
    (rstrip tab ++ "\n" ++ entry ++ "\n").data
      = (rstrip tab).data ++ '\n' :: (entry.data ++ '\n' :: []) := by
  simp [String.data_append, nl_data]

theorem setup_cron_update_lines (entry tab : String) (hnl : '\n' ∉ entry.data) :
    strLines (rstrip tab ++ "\n" ++ entry ++ "\n")
      = strLines (rstrip tab) ++ [entry, ""] := by
  rw [strLines, setup_cron_update_data, splitOnNl_append, splitOnNl_append,
    splitOnNl_of_no_nl entry.data hnl]
  rw [show splitOnNl [] = [[]] from rfl]
  simp only [List.map_append, List.map_cons, List.map_nil]
  rfl

theorem count_entry_rstrip_zero (entry tab : String) (h : pyIn entry tab = false) :
    (strLines (rstrip tab)).count entry = 0 := by
  rw [List.count_eq_zero]
  intro hmem
  rw [strLines] at hmem
  rcases List.mem_map.mp hmem with ⟨l, hl, hlk⟩
  have hld : l = entry.data := congrArg String.data hlk
  rw [hld] at hl
  have h1 : entry.data <:+: (rstrip tab).data := mem_splitOnNl_infix hl
  have h2 : entry.data <:+: tab.data :=
    List.IsInfix.trans h1 (by exact List.IsPrefix.isInfix (rstrip_data_isPre tab))
  rw [(pyIn_iff entry tab).mpr h2] at h
  cases h

theorem pyIn_appended (entry tab : String) :
    pyIn entry (rstrip tab ++ "\n" ++ entry ++ "\n") = true := by
  rw [pyIn_iff, setup_cron_update_data]
  exact ⟨(rstrip tab).data ++ ['\n'], ['\n'], by simp⟩

/-- Claim C3 (amended): `setup_cron`'s table rewrite is a no-op returning
success when the entry already occurs as a substring of the table; otherwise
it appends the entry after the stripped existing table, after which a second
call is a no-op, the table's lines are exactly the stripped prior lines
followed by the entry (and a trailing empty line), and exactly one line
equals the entry.  (The unconditional "exactly one matching line after
calling twice" fails when the initial table already contains duplicate
copies of the entry — see the counterexample.) -/
theorem C3_scheduler_dedup (entry tab : String)
    (hnl : '\n' ∉ entry.data) (hne : entry ≠ "") :
    (pyIn entry tab = true → setup_cron_update entry tab = tab) ∧
    (pyIn entry tab = false →
       setup_cron_update entry (setup_cron_update entry tab)
         = setup_cron_update entry tab ∧
       strLines (setup_cron_update entry tab)
         = strLines (rstrip tab) ++ [entry, ""] ∧
       (strLines (setup_cron_update entry tab)).count entry = 1) := by
  constructor
  · intro h
    rw [setup_cron_update, if_pos h]
  · intro h
    have hupd : setup_cron_update entry tab = rstrip tab ++ "\n" ++ entry ++ "\n" := by
      rw [setup_cron_update, if_neg (by simp [h])]
    refine ⟨?_, ?_, ?_⟩
    · rw [hupd, setup_cron_update, if_pos (pyIn_appended entry tab), ← hupd]
    · rw [hupd, setup_cron_update_lines entry tab hnl]
    · rw [hupd, setup_cron_update_lines entry tab hnl, List.count_append,
        count_entry_rstrip_zero entry tab h]
      have hne2 : ¬("" = entry) := fun hh => hne hh.symm
      simp [List.count_cons, hne2]

theorem C3_scheduler_dedup_witness :
    (strLines (setup_cron_update cron_job "")).count cron_job = 1 :=
  ((C3_scheduler_dedup cron_job "" (by decide) (by decide)).2 rfl).2.2

/-- Claim C3 as literally stated is false: starting from a crontab that
already contains the entry twice, both calls are no-ops (the entry is a
substring), so two matching lines remain, not exactly one. -/
theorem C3_counterexample :
    (strLines (setup_cron_update cron_job
        (setup_cron_update cron_job (cron_job ++ "\n" ++ cron_job ++ "\n")))).count
        cron_job = 2 := by
  decide

/-! ### Claim C6 -/

theorem runSteps_cons_false {σ : Type} (f : σ → Bool × σ) (rest : List (σ → Bool × σ))
    (s : σ) (h : (f s).1 = false) : runSteps (f :: rest) s = (false, (f s).2, 1) := by
  rcases hfs : f s with ⟨b, s1⟩
  rw [hfs] at h
  simp only at h
  subst h
  simp [runSteps, hfs]

theorem runSteps_cons_true {σ : Type} (f : σ → Bool × σ) (rest : List (σ → Bool × σ))
    (s : σ) (h : (f s).1 = true) :
    runSteps (f :: rest) s
      = ((runSteps rest (f s).2).1, (runSteps rest (f s).2).2.1,
         (runSteps rest (f s).2).2.2 + 1) := by
  rcases hfs : f s with ⟨b, s1⟩
  rw [hfs] at h
  simp only at h
  subst h
  rcases hr : runSteps rest s1 with ⟨b2, s2n⟩
  obtain ⟨s2, n⟩ := s2n
  simp [runSteps, hfs, hr]

theorem runSteps_append {σ : Type} (pre rest : List (σ → Bool × σ)) (s : σ)
    (h : allSucceed pre s) :
    runSteps (pre ++ rest) s
      = ((runSteps rest (execList pre s)).1, (runSteps rest (execList pre s)).2.1,
         (runSteps rest (execList pre s)).2.2 + pre.length) := by
  induction pre generalizing s with
  | nil => simp [execList]
  | cons f t ih =>
    obtain ⟨h1, h2⟩ := h
    rw [List.cons_append, runSteps_cons_true _ _ _ h1, ih _ h2]
    simp [execList, Nat.add_assoc]

theorem allSucceed_runSteps {σ : Type} (l : List (σ → Bool × σ)) (s : σ)
    (h : allSucceed l s) : runSteps l s = (true, execList l s, l.length) := by
  induction l generalizing s with
  | nil => simp [runSteps, execList]
  | cons f t ih =>
    obtain ⟨h1, h2⟩ := h
    rw [runSteps_cons_true _ _ _ h1, ih _ h2]
    simp [execList]

/-- Claim C6: `run` executes the ten mandatory steps in their fixed order and
halts at the first failing step, executing no later mandatory step (the
executed count is the failing step's position); `main` exits 1 exactly when a
mandatory step failed and 0 when all succeeded, whatever the optional
credential and first-run flows do afterwards. -/
theorem C6_sequencer (e : Env) (opt : OptFlows) (s : SysState) :
    (∀ pre f post, mandatorySteps e = pre ++ f :: post →
       allSucceed pre s → (f (execList pre s)).1 = false →
       (bootstrap_run e opt s).1 = false ∧
       steps_executed e s = pre.length + 1 ∧
       main_exit_code e opt s = 1) ∧
    (allSucceed (mandatorySteps e) s →
       (bootstrap_run e opt s).1 = true ∧
       main_exit_code e opt s = 0) := by
  have hplaceholder : ¬(GITHUB_REPO = "your-username/tplink-deco-poller") := by decide
  constructor
  · intro pre f post hsplit hpre hfail
    have hrun : runSteps (mandatorySteps e) s = (false, (f (execList pre s)).2, 1 + pre.length) := by
      rw [hsplit, runSteps_append pre (f :: post) s hpre,
        runSteps_cons_false f post (execList pre s) hfail]
    have hb : (bootstrap_run e opt s).1 = false := by
      rw [bootstrap_run.eq_def, hrun]
    refine ⟨hb, ?_, ?_⟩
    · rw [steps_executed, hrun]
      exact Nat.add_comm 1 pre.length
    · rw [main_exit_code, if_neg hplaceholder, hb]
      rfl
  · intro hall
    have hrun := allSucceed_runSteps (mandatorySteps e) s hall
    have hb : (bootstrap_run e opt s).1 = true := by
      rw [bootstrap_run.eq_def, hrun]
    refine ⟨hb, ?_⟩
    rw [main_exit_code, if_neg hplaceholder, hb]
    rfl

/-- An environment whose very first mandatory step (the privilege check)
fails. -/
def c6_fail_env : Env :=
  { isRoot := false, internetOk := true, aptCacheFresh := true, aptUpdateOk := true,
    dpkgOutput := "", aptInstallOk := true, fetch := fun _ => none, now := "",
    pipOk := true, cronWriteOk := true }

theorem C6_sequencer_witness :
    main_exit_code c6_fail_env declinedFlows freshState = 1 ∧
    steps_executed c6_fail_env freshState = 1 := by
  have h := (C6_sequencer c6_fail_env declinedFlows freshState).1 []
    (check_privileges c6_fail_env)
    [check_internet_connection c6_fail_env, update_packages c6_fail_env,
     install_system_dependencies c6_fail_env, create_directories,
     download_files c6_fail_env.fetch c6_fail_env.now,
     setup_virtual_environment c6_fail_env.pipOk,
     create_env_file, set_permissions, setup_cron c6_fail_env.cronWriteOk]
    rfl trivial rfl
  exact ⟨h.2.2, h.2.1⟩

/-! ### A pointwise description of `set_permissions` -/

/-- The mode `set_permissions` leaves on path `q` whose previous mode is `m`
(`venvExists` records whether the venv directory was present). -/
def sp_mode (venvExists : Bool) (q : String) (m : Nat) : Nat :=
  if q = base_dir then 0o755
  else if q = log_dir then 0o755
  else if venvExists = true ∧ (q = venv_dir ∨ q = python_exe) then 0o755
  else if q = pjoin base_dir "generate_hosts.py" then 0o644
  else if q = pjoin base_dir "tplink.env" then 0o600
  else if q = pjoin base_dir "run_generate_hosts.sh" then 0o755
  else if q = pjoin base_dir "requirements.txt" then 0o644
  else m

/-- The entry `set_permissions` leaves at path `q` given the previous entry:
ownership changes only at the base directory itself. -/
def sp_entry (venvExists : Bool) (q : String) (e : Entry) : Entry :=
  { e with
    owner := if q = base_dir then "root" else e.owner,
    group := if q = base_dir then "root" else e.group,
    mode := sp_mode venvExists q e.mode }

theorem fsGet_chmodIfExists (fs : FS) (p : String) (m : Nat) (q : String) :
    fsGet (chmodIfExists fs p m) q
      = if q = p then (fsGet fs q).map (fun e0 => { e0 with mode := m })
        else fsGet fs q := by
  rw [chmodIfExists.eq_def]
  cases hp : fsGet fs p with
  | none =>
    by_cases hq : q = p
    · subst hq
      rw [if_pos rfl, hp]
      rfl
    · rw [if_neg hq]
  | some d =>
    rw [fsGet_fsSet]
    by_cases hq : q = p
    · subst hq
      rw [if_pos rfl, if_pos rfl, hp]
      rfl
    · rw [if_neg hq, if_neg hq]

/-- `set_permissions` succeeds whenever the base and log directories exist,
and its effect on every path is described by `sp_entry`. -/
theorem set_permissions_spec (s : SysState) (eb el : Entry)
    (hb : fsGet s.fs base_dir = some eb) (hl : fsGet s.fs log_dir = some el) :
    (set_permissions s).1 = true ∧
    (set_permissions s).2.crontab = s.crontab ∧
    (set_permissions s).2.tempStaging = s.tempStaging ∧
    ∀ q, fsGet (set_permissions s).2.fs q
        = (fsGet s.fs q).map (sp_entry (fsGet s.fs venv_dir).isSome q) := by
  have hlb : ¬(log_dir = base_dir) := by decide
  have hvb : ¬(venv_dir = base_dir) := by decide
  have hvl : ¬(venv_dir = log_dir) := by decide
  cases hv : fsGet s.fs venv_dir with
  | none =>
    simp only [set_permissions, tryChown, tryChmod, hb, hl, hv, fsGet_fsSet, hlb, hvb, hvl,
      files_permissions, List.foldl_cons, List.foldl_nil, eq_self_iff_true, if_true,
      if_false, Option.isSome_none, fsGet_chmodIfExists]
    refine ⟨trivial, trivial, trivial, ?_⟩
    intro q
    by_cases hq1 : q = base_dir
    · subst hq1
      rw [hb]
      rfl
    by_cases hq2 : q = log_dir
    · subst hq2
      rw [hl]
      rfl
    by_cases hq5 : q = pjoin base_dir "generate_hosts.py"
    · subst hq5
      rfl
    by_cases hq6 : q = pjoin base_dir "tplink.env"
    · subst hq6
      rfl
    by_cases hq7 : q = pjoin base_dir "run_generate_hosts.sh"
    · subst hq7
      rfl
    by_cases hq8 : q = pjoin base_dir "requirements.txt"
    · subst hq8
      rfl
    cases fsGet s.fs q with
    | none =>
      simp only [hq1, hq2, hq5, hq6, hq7, hq8, ite_false, Option.map]
    | some e0 =>
      simp only [hq1, hq2, hq5, hq6, hq7, hq8, ite_false, Option.map, sp_entry, sp_mode,
        Bool.false_eq_true, false_and, false_or, and_false]
  | some ev =>
    simp only [set_permissions, tryChown, tryChmod, hb, hl, hv, fsGet_fsSet, hlb, hvb, hvl,
      files_permissions, List.foldl_cons, List.foldl_nil, eq_self_iff_true, if_true,
      if_false, Option.isSome_some, fsGet_chmodIfExists]
    refine ⟨trivial, trivial, trivial, ?_⟩
    intro q
    by_cases hq1 : q = base_dir
    · subst hq1
      rw [hb]
      rfl
    by_cases hq2 : q = log_dir
    · subst hq2
      rw [hl]
      rfl
    by_cases hq3 : q = venv_dir
    · subst hq3
      rw [hv]
      rfl
    by_cases hq4 : q = python_exe
    · subst hq4
      rfl
    by_cases hq5 : q = pjoin base_dir "generate_hosts.py"
    · subst hq5
      rfl
    by_cases hq6 : q = pjoin base_dir "tplink.env"
    · subst hq6
      rfl
    by_cases hq7 : q = pjoin base_dir "run_generate_hosts.sh"
    · subst hq7
      rfl
    by_cases hq8 : q = pjoin base_dir "requirements.txt"
    · subst hq8
      rfl
    cases fsGet s.fs q with
    | none =>
      simp only [hq1, hq2, hq3, hq4, hq5, hq6, hq7, hq8, ite_false, Option.map]
    | some e0 =>
      simp only [hq1, hq2, hq3, hq4, hq5, hq6, hq7, hq8, ite_false, Option.map, sp_entry,
        sp_mode, eq_self_iff_true, true_and, false_or, and_false, and_self]

/-! ### Claim C5 -/

/-- A state where the base and log directories exist, and a file beneath the
installation root is owned by an ordinary user. -/
def c5_state : SysState :=
  { fs := [(base_dir, { isDir := true, mode := 0o700, owner := "admin", group := "admin" }),
           (log_dir, { isDir := true, mode := 0o755 }),
           (pjoin base_dir "data.txt", { content := "x", owner := "alice", group := "users" })],
    crontab := "", tempStaging := false }

/-- Claim C5 as stated is false: `shutil.chown` is applied to the base
directory only, not recursively, so after a successful `set_permissions` a
file beneath the Installation Root can still be owned by a non-privileged
user. -/
theorem C5_counterexample :
    (set_permissions c5_state).1 = true ∧
    fsGet (set_permissions c5_state).2.fs (pjoin base_dir "data.txt")
      = some { content := "x", owner := "alice", group := "users" } := by
  constructor
  · rfl
  · rfl

/-- Claim C5 (amended): `set_permissions` applies the fixed root ownership to
the Installation Root directory itself only — the `chown` is not recursive.
After a successful run the root directory is owned `root:root` with mode
`0o755`, while every other existing path keeps its previous owner, group,
content and kind; only permission modes of the well-known paths change. -/
theorem C5_ownership_root_only (s : SysState) (eb el : Entry)
    (hb : fsGet s.fs base_dir = some eb) (hl : fsGet s.fs log_dir = some el) :
    (set_permissions s).1 = true ∧
    fsGet (set_permissions s).2.fs base_dir
      = some { eb with owner := "root", group := "root", mode := 0o755 } ∧
    (∀ q, q ≠ base_dir → ∀ e0, fsGet s.fs q = some e0 →
       ∃ e2, fsGet (set_permissions s).2.fs q = some e2 ∧
         e2.owner = e0.owner ∧ e2.group = e0.group ∧ e2.content = e0.content ∧
         e2.isDir = e0.isDir) := by
  obtain ⟨h1, _, _, h4⟩ := set_permissions_spec s eb el hb hl
  refine ⟨h1, ?_, ?_⟩
  · rw [h4 base_dir, hb]
    simp [sp_entry, sp_mode]
  · intro q hq e0 he0
    rw [h4 q, he0]
    exact ⟨_, rfl, by simp [sp_entry, hq], by simp [sp_entry, hq], rfl, rfl⟩

theorem C5_ownership_root_only_witness :
    fsGet (set_permissions c5_state).2.fs base_dir
      = some { isDir := true, content := "", mode := 0o755, owner := "root", group := "root" } :=
  (C5_ownership_root_only c5_state
    { isDir := true, mode := 0o700, owner := "admin", group := "admin" }
    { isDir := true, mode := 0o755 } rfl rfl).2.1

/-! ### Claim C10 -/

/-- Claim C10: with the base and log directories present, `set_permissions`
succeeds no matter which of the well-known files are absent: it creates no
absent file, and applies each per-filename mode exactly to the files that
exist (their content untouched). -/
theorem C10_missing_files_ok (s : SysState) (eb el : Entry)
    (hb : fsGet s.fs base_dir = some eb) (hl : fsGet s.fs log_dir = some el) :
    (set_permissions s).1 = true ∧
    (∀ q, fsGet s.fs q = none → fsGet (set_permissions s).2.fs q = none) ∧
    (∀ pm ∈ files_permissions, ∀ e0,
       fsGet s.fs (pjoin base_dir pm.1) = some e0 →
       ∃ e2, fsGet (set_permissions s).2.fs (pjoin base_dir pm.1) = some e2 ∧
         e2.mode = pm.2 ∧ e2.content = e0.content) := by
  obtain ⟨h1, _, _, h4⟩ := set_permissions_spec s eb el hb hl
  refine ⟨h1, ?_, ?_⟩
  · intro q hq
    rw [h4 q, hq]
    rfl
  · intro pm hpm e0 he0
    rw [h4 _, he0]
    refine ⟨_, rfl, ?_, rfl⟩
    simp only [files_permissions, List.mem_cons, List.not_mem_nil, or_false] at hpm
    rcases hpm with rfl | rfl | rfl | rfl <;>
      simp [sp_entry, sp_mode, pjoin, base_dir, log_dir, venv_dir, python_exe]

/-- A state holding only the two directories and none of the well-known
files. -/
def c10_state : SysState :=
  { fs := [(base_dir, { isDir := true, mode := 0o755 }),
           (log_dir, { isDir := true, mode := 0o755 })],
    crontab := "", tempStaging := false }

theorem C10_missing_files_ok_witness :
    (set_permissions c10_state).1 = true :=
  (C10_missing_files_ok c10_state { isDir := true, mode := 0o755 }
    { isDir := true, mode := 0o755 } rfl rfl).1

/-! ### Claim C7 -/

/-- An environment in which every mandatory step can succeed: privileged,
online, fresh package cache, every remote fetch returning content `f`. -/
def scenario_env (f : String → String) (now : String) : Env :=
  { isRoot := true, internetOk := true, aptCacheFresh := true, aptUpdateOk := true,
    dpkgOutput := "", aptInstallOk := true, fetch := fun gn => some (f gn), now := now,
    pipOk := true, cronWriteOk := true }

/-- State after `create_directories` on a fresh machine. -/
def c7_dirs : SysState :=
  { fs := [("/srv/tplink-deco",
            { isDir := true, content := "", mode := 0o755, owner := "root", group := "root" }),
           ("/srv/tplink-deco/log",
            { isDir := true, content := "", mode := 0o755, owner := "root", group := "root" })],
    crontab := "", tempStaging := false }

/-- State after `download_files` fetched contents `f`. -/
def c7_fetched (f : String → String) : SysState :=
  { c7_dirs with fs := c7_dirs.fs ++
      [("/srv/tplink-deco/generate_hosts.py",
        { isDir := false, content := f "generate_hosts.py", mode := 0o644,
          owner := "root", group := "root" }),
       ("/srv/tplink-deco/run_generate_hosts.sh",
        { isDir := false, content := f "run_generate_hosts.sh", mode := 0o644,
          owner := "root", group := "root" }),
       ("/srv/tplink-deco/requirements.txt",
        { isDir := false, content := f "requirements.txt", mode := 0o644,
          owner := "root", group := "root" })] }

/-- State after `setup_virtual_environment`. -/
def c7_venv (f : String → String) : SysState :=
  { c7_dirs with fs := (c7_fetched f).fs ++
      [("/srv/tplink-deco/venv",
        { isDir := true, content := "", mode := 0o755, owner := "root", group := "root" }),
       ("/srv/tplink-deco/venv/bin/python",
        { isDir := false, content := "", mode := 0o755, owner := "root", group := "root" })] }

/-- State after `create_env_file`. -/
def c7_env (f : String → String) : SysState :=
  { c7_dirs with fs := (c7_venv f).fs ++
      [("/srv/tplink-deco/tplink.env",
        { isDir := false, content := env_template, mode := 0o644,
          owner := "root", group := "root" })] }

/-- State after `set_permissions`. -/
def c7_perms (f : String → String) : SysState :=
  { fs := [("/srv/tplink-deco",
            { isDir := true, content := "", mode := 0o755, owner := "root", group := "root" }),
           ("/srv/tplink-deco/log",
            { isDir := true, content := "", mode := 0o755, owner := "root", group := "root" }),
           ("/srv/tplink-deco/generate_hosts.py",
            { isDir := false, content := f "generate_hosts.py", mode := 0o644,
              owner := "root", group := "root" }),
           ("/srv/tplink-deco/run_generate_hosts.sh",
            { isDir := false, content := f "run_generate_hosts.sh", mode := 0o755,
              owner := "root", group := "root" }),
           ("/srv/tplink-deco/requirements.txt",
            { isDir := false, content := f "requirements.txt", mode := 0o644,
              owner := "root", group := "root" }),
           ("/srv/tplink-deco/venv",
            { isDir := true, content := "", mode := 0o755, owner := "root", group := "root" }),
           ("/srv/tplink-deco/venv/bin/python",
            { isDir := false, content := "", mode := 0o755, owner := "root", group := "root" }),
           ("/srv/tplink-deco/tplink.env",
            { isDir := false, content := env_template, mode := 0o600,
              owner := "root", group := "root" })],
    crontab := "", tempStaging := false }

/-- Final state: `setup_cron` has installed the single entry. -/
def c7_final (f : String → String) : SysState :=
  { c7_perms f with
    crontab := "\n0 * * * * /srv/tplink-deco/run_generate_hosts.sh\n" }

set_option maxHeartbeats 1000000 in
set_option maxRecDepth 8192 in
/-- Claim C7: starting from a fresh machine (no installation root, empty job
table), a successful run with the optional flows declined leaves the
installation root with mode `0o755`, the credentials file holding the
sentinel template with mode `0o600`, a job table whose sole content is the
single line `0 * * * * /srv/tplink-deco/run_generate_hosts.sh`, and no backup
files. -/
theorem C7_fresh_machine (f : String → String) (now : String) :
    (bootstrap_run (scenario_env f now) declinedFlows freshState).1 = true ∧
    fsGet (bootstrap_run (scenario_env f now) declinedFlows freshState).2.fs base_dir
      = some { isDir := true, mode := 0o755 } ∧
    fsGet (bootstrap_run (scenario_env f now) declinedFlows freshState).2.fs env_file_path
      = some { content := env_template, mode := 0o600 } ∧
    pyIn sentinel_gateway env_template = true ∧
    pyIn sentinel_password env_template = true ∧
    (bootstrap_run (scenario_env f now) declinedFlows freshState).2.crontab
      = "\n" ++ cron_job ++ "\n" ∧
    (strLines ((bootstrap_run (scenario_env f now) declinedFlows freshState).2.crontab)).count
        cron_job = 1 ∧
    (∀ p ∈ fsKeys (bootstrap_run (scenario_env f now) declinedFlows freshState).2.fs,
       pyIn ".backup." p = false) := by
  have e5 : create_directories freshState = (true, c7_dirs) := rfl
  have e6 : download_files (fun gn => some (f gn)) now c7_dirs = (true, c7_fetched f) := rfl
  have e7 : setup_virtual_environment true (c7_fetched f) = (true, c7_venv f) := rfl
  have e8 : create_env_file (c7_venv f) = (true, c7_env f) := rfl
  have e9 : set_permissions (c7_env f) = (true, c7_perms f) := rfl
  have e10 : setup_cron true (c7_perms f) = (true, c7_final f) := rfl
  have hall : allSucceed (mandatorySteps (scenario_env f now)) freshState := by
    simp only [mandatorySteps, allSucceed, scenario_env, check_privileges,
      check_internet_connection, update_packages, install_system_dependencies,
      required_packages, e5, e6, e7, e8, e9, e10, if_true, and_true, true_and, ite_self]
  have hexec : execList (mandatorySteps (scenario_env f now)) freshState = c7_final f := by
    simp only [mandatorySteps, execList, scenario_env, check_privileges,
      check_internet_connection, update_packages, install_system_dependencies,
      e5, e6, e7, e8, e9, e10]
  have hrun := allSucceed_runSteps (mandatorySteps (scenario_env f now)) freshState hall
  rw [hexec] at hrun
  have hboot : bootstrap_run (scenario_env f now) declinedFlows freshState
      = (true, c7_final f) := by
    rw [bootstrap_run.eq_def, hrun]
    rfl
  refine ⟨?_, ?_, ?_, by decide, by decide, ?_, ?_, ?_⟩
  · rw [hboot]
  · rw [hboot]
    rfl
  · rw [hboot]
    rfl
  · rw [hboot]
    rfl
  · rw [hboot]
    have hct : (true, c7_final f).2.crontab
        = "\n0 * * * * /srv/tplink-deco/run_generate_hosts.sh\n" := rfl
    rw [hct]
    decide
  · rw [hboot]
    have hkeys : fsKeys (true, c7_final f).2.fs
        = ["/srv/tplink-deco", "/srv/tplink-deco/log",
           "/srv/tplink-deco/generate_hosts.py", "/srv/tplink-deco/run_generate_hosts.sh",
           "/srv/tplink-deco/requirements.txt", "/srv/tplink-deco/venv",
           "/srv/tplink-deco/venv/bin/python", "/srv/tplink-deco/tplink.env"] := rfl
    rw [hkeys]
    decide

theorem C7_fresh_machine_witness :
    (bootstrap_run (scenario_env (fun _ => "content") "20250101_000000")
        declinedFlows freshState).1 = true :=
  (C7_fresh_machine (fun _ => "content") "20250101_000000").1

end Bootstrap
